import Mathlib

/-!
Verification of the BluePrint eDNA backend's classification and
diversity-metrics engine, shallowly embedded from
`blueprint_backend/core/tasks.py` and `blueprint_backend/core/models.py`.

Machine floats of the Python code are embedded as exact rationals (and, for
the Shannon index which uses a transcendental logarithm, as reals); Django
query-set aggregation over the taxonomic-assignment table is embedded as
explicit folds over a list of assignment records.
-/

namespace BluePrint

/-- One row of the `TaxonomicAssignment` table (`core/models.py`), restricted
to the fields the tasks under verification read or write.  `null=True`
columns are `Option`-valued; `read_count` is a Django `IntegerField`, hence
an integer. -/
structure TaxonomicAssignment where
  sample_id : String
  sequence_id : String
  sequence_data : String
  kingdom : String
  phylum : Option String
  genus : Option String
  species : Option String
  database_source : String
  confidence_level : String
  confidence_score : ℚ
  read_count : ℤ
  is_novel_taxon : Bool
deriving DecidableEq

/-- Python truthiness of an optional string: `None` and the empty string are
falsy, every other string is truthy. -/
def pyTruthy : Option String → Bool
  | none => false
  | some s => !(s.isEmpty)

/-- Python string interpolation of an optional string: `None` renders as the
four-letter string None. -/
def pyStr : Option String → String
  | none => "None"
  | some s => s

/-- The species-level grouping key of `calculate_biodiversity_metrics`
(tasks.py line 31), translating the Python expression
`assignment.species or f"..._sp" or "Unknown"`: an `or` chain takes the first
truthy operand.  The middle operand is the genus interpolated into a string
ending in `_sp`, which is never empty, so it is always truthy when reached. -/
def speciesKeyOf (a : TaxonomicAssignment) : String :=
  if pyTruthy a.species then pyStr a.species
  else if !(pyStr a.genus ++ "_sp").isEmpty then pyStr a.genus ++ "_sp"
  else "Unknown"

/-- The key set of the `species_counts` dictionary built by
`calculate_biodiversity_metrics` (tasks.py lines 27-37). -/
def speciesKeys (as : List TaxonomicAssignment) : Finset String :=
  (as.map speciesKeyOf).toFinset

/-- The value `species_counts[k]`: the sum of `read_count` over the
assignments grouped under key `k` (tasks.py lines 34-37). -/
def groupCount (as : List TaxonomicAssignment) (k : String) : ℤ :=
  ((as.filter (fun a => decide (speciesKeyOf a = k))).map (fun a => a.read_count)).sum

/-- `total_reads`: the sum of `read_count` over all assignments
(tasks.py line 39). -/
def totalReads (as : List TaxonomicAssignment) : ℤ :=
  (as.map (fun a => a.read_count)).sum

/-- `observed_otus = len(species_counts)` (tasks.py line 42). -/
def observedOtus (as : List TaxonomicAssignment) : ℕ :=
  (speciesKeys as).card

/-- Shannon diversity (tasks.py lines 44-49): for each dictionary value
`count` with `count > 0`, subtract `p * ln p` where `p = count / total_reads`. -/
noncomputable def shannonDiversity (as : List TaxonomicAssignment) : ℝ :=
  ∑ k in speciesKeys as,
    (if 0 < groupCount as k then
      -(((groupCount as k : ℝ) / (totalReads as : ℝ)) *
        Real.log ((groupCount as k : ℝ) / (totalReads as : ℝ)))
    else 0)

/-- Simpson diversity (tasks.py lines 51-57): `1 - Σ p*p` over the dictionary
values with `count > 0`. -/
def simpsonDiversity (as : List TaxonomicAssignment) : ℚ :=
  1 - ∑ k in speciesKeys as,
    (if 0 < groupCount as k then
      ((groupCount as k : ℚ) / (totalReads as : ℚ)) *
      ((groupCount as k : ℚ) / (totalReads as : ℚ))
    else 0)

/-- `singletons`: the number of dictionary values equal to 1
(tasks.py line 60). -/
def singletons (as : List TaxonomicAssignment) : ℕ :=
  ((speciesKeys as).filter (fun k => groupCount as k = 1)).card

/-- `doubletons`: the number of dictionary values equal to 2
(tasks.py line 61). -/
def doubletons (as : List TaxonomicAssignment) : ℕ :=
  ((speciesKeys as).filter (fun k => groupCount as k = 2)).card

/-- Chao1 richness estimator (tasks.py lines 63-66). -/
def chao1Richness (as : List TaxonomicAssignment) : ℚ :=
  if 0 < doubletons as then
    (observedOtus as : ℚ) +
      ((singletons as : ℚ) * (singletons as : ℚ)) / (2 * (doubletons as : ℚ))
  else (observedOtus as : ℚ)

/-- The configured protist phylum set (tasks.py line 69). -/
def protist_phylums : List String :=
  ["Foraminifera", "Radiolaria", "Ciliophora", "Dinoflagellata"]

/-- The configured metazoan phylum set (tasks.py line 70). -/
def metazoan_phylums : List String :=
  ["Nematoda", "Arthropoda", "Mollusca", "Annelida"]

/-- The configured cnidarian phylum set (tasks.py line 71). -/
def cnidarian_phylums : List String := ["Cnidaria"]

/-- The configured fungi phylum set (tasks.py line 72). -/
def fungi_phylums : List String := ["Ascomycota", "Basidiomycota"]

/-- The Django filter `phylum__in=phyla` applied to one row: a null phylum
matches nothing. -/
def phylumIn (a : TaxonomicAssignment) (phyla : List String) : Bool :=
  match a.phylum with
  | none => false
  | some p => decide (p ∈ phyla)

/-- The aggregation `assignments.filter(phylum__in=phyla).aggregate(Sum('read_count'))`
(tasks.py lines 74-81); an empty aggregate yields 0 through the `or 0`. -/
def readsIn (as : List TaxonomicAssignment) (phyla : List String) : ℤ :=
  ((as.filter (fun a => phylumIn a phyla)).map (fun a => a.read_count)).sum

/-- `assigned_sequences = assignments.count()` (tasks.py line 83): the number
of assignment rows, with no filtering on confidence level. -/
def assignedSequences (as : List TaxonomicAssignment) : ℕ :=
  as.length

/-- `novel_sequences = assignments.filter(is_novel_taxon=True).count()`
(tasks.py line 84). -/
def novelSequences (as : List TaxonomicAssignment) : ℕ :=
  (as.filter (fun a => a.is_novel_taxon)).length

/-- `assignment_rate = assigned_sequences / total_reads if total_reads > 0 else 0`
(tasks.py line 85). -/
def assignmentRate (as : List TaxonomicAssignment) : ℚ :=
  if 0 < totalReads as then (assignedSequences as : ℚ) / (totalReads as : ℚ) else 0

/-- `protist_percentage` (tasks.py line 99). -/
def protistPercentage (as : List TaxonomicAssignment) : ℚ :=
  if 0 < totalReads as then
    (readsIn as protist_phylums : ℚ) / (totalReads as : ℚ) * 100
  else 0

/-- `metazoan_percentage` (tasks.py line 100). -/
def metazoanPercentage (as : List TaxonomicAssignment) : ℚ :=
  if 0 < totalReads as then
    (readsIn as metazoan_phylums : ℚ) / (totalReads as : ℚ) * 100
  else 0

/-- `cnidarian_percentage` (tasks.py line 101). -/
def cnidarianPercentage (as : List TaxonomicAssignment) : ℚ :=
  if 0 < totalReads as then
    (readsIn as cnidarian_phylums : ℚ) / (totalReads as : ℚ) * 100
  else 0

/-- `fungi_percentage` (tasks.py line 102). -/
def fungiPercentage (as : List TaxonomicAssignment) : ℚ :=
  if 0 < totalReads as then
    (readsIn as fungi_phylums : ℚ) / (totalReads as : ℚ) * 100
  else 0

/-- The `BiodiversityMetrics` row written by `update_or_create`
(tasks.py lines 88-104, `core/models.py` lines 208-229). -/
structure BiodiversityMetricsRecord where
  shannon_diversity : ℝ
  simpson_diversity : ℚ
  chao1_richness : ℚ
  observed_otus : ℕ
  total_sequences : ℤ
  assigned_sequences : ℕ
  novel_sequences : ℕ
  assignment_rate : ℚ
  protist_percentage : ℚ
  metazoan_percentage : ℚ
  cnidarian_percentage : ℚ
  fungi_percentage : ℚ

/-- `calculate_biodiversity_metrics` (tasks.py lines 17-120) on the sample's
assignment list: the guard at line 23 returns the error result
before anything is computed or persisted; otherwise the metrics row that
`update_or_create` stores is returned. -/
noncomputable def calculate_biodiversity_metrics (as : List TaxonomicAssignment) :
    Except String BiodiversityMetricsRecord :=
  if as.isEmpty then Except.error "No taxonomic assignments found for sample"
  else Except.ok
    { shannon_diversity := shannonDiversity as
      simpson_diversity := simpsonDiversity as
      chao1_richness := chao1Richness as
      observed_otus := observedOtus as
      total_sequences := totalReads as
      assigned_sequences := assignedSequences as
      novel_sequences := novelSequences as
      assignment_rate := assignmentRate as
      protist_percentage := protistPercentage as
      metazoan_percentage := metazoanPercentage as
      cnidarian_percentage := cnidarianPercentage as
      fungi_percentage := fungiPercentage as }

/-- The `BiodiversityMetrics` row persisted by a call of
`calculate_biodiversity_metrics`: `update_or_create` runs only on the
success path, so an error call persists nothing. -/
noncomputable def persistedMetrics (as : List TaxonomicAssignment) :
    Option BiodiversityMetricsRecord :=
  (calculate_biodiversity_metrics as).toOption

/-- Follows the spec's words, for comparison with the source translation
`assignedSequences`: the count of assignments whose `confidence_level`
is not `uncertain`. -/
def specAssignedSequences (as : List TaxonomicAssignment) : ℕ :=
  (as.filter (fun a => decide (a.confidence_level ≠ "uncertain"))).length

/-- Follows the spec's words, for comparison with the source translation
`assignmentRate`: `assigned_sequences / total_sequences_attempted`, the
denominator being the number of assignments attempted (one per sequence). -/
def specAssignmentRate (as : List TaxonomicAssignment) : ℚ :=
  (specAssignedSequences as : ℚ) / (as.length : ℚ)

/-- A normalized search hit, as the spec's data model describes it: percent
identity, alignment coverage and e-value of the best match, with its source
database and accession. -/
structure MatchResult where
  identity_percent : ℚ
  coverage_percent : ℚ
  e_value : ℚ
  database : String
  accession : String
deriving DecidableEq

/-- The Confidence Classifier's configuration surface: the three level
thresholds. -/
structure ConfidenceThresholds where
  high_threshold : ℚ
  medium_threshold : ℚ
  low_threshold : ℚ
deriving DecidableEq

/-- The default thresholds 0.90 / 0.70 / 0.50. -/
def defaultThresholds : ConfidenceThresholds :=
  { high_threshold := 9/10, medium_threshold := 7/10, low_threshold := 1/2 }

/-- Modelled from the spec: the Confidence Classifier of spec section 4.2 is
not implemented in the repository's source - `process_sequence_file`
(tasks.py lines 162-163) fabricates confidence levels and scores from random
draws, and `core/models.py` only declares the level choices - so `classify`
is written from the spec's words: no match gives level uncertain with score
0; otherwise the score is the identity fraction down-weighted by
`min(1, coverage_percent/70)`, and the level is read off the thresholds. -/
def classify (cfg : ConfidenceThresholds) (best : Option MatchResult) : String × ℚ :=
  match best with
  | none => ("uncertain", 0)
  | some m =>
    let score := m.identity_percent / 100 * min 1 (m.coverage_percent / 70)
    if cfg.high_threshold ≤ score then ("high", score)
    else if cfg.medium_threshold ≤ score then ("medium", score)
    else if cfg.low_threshold ≤ score then ("low", score)
    else ("uncertain", score)

/-- Modelled from the spec: the Novel-Taxon Detector of spec section 4.3 is
not implemented in the repository's source - `process_sequence_file`
(tasks.py line 165) draws the novelty flag at random, and `core/models.py`
only declares the boolean column - so `is_novel` is written from the spec's
words: a sequence is novel when no database produced any hit, or when the
best hit's identity is below the configured threshold (default 80). -/
def is_novel (novel_identity_threshold : ℚ) (best : Option MatchResult) : Bool :=
  match best with
  | none => true
  | some m => decide (m.identity_percent < novel_identity_threshold)

/-- One entry of the `sample_taxa` list of `process_sequence_file`
(tasks.py lines 142-147). -/
structure Taxon where
  kingdom : String
  phylum : String
  genus : String
  species : String
deriving DecidableEq

/-- The `sample_taxa` list (tasks.py lines 142-147). -/
def sample_taxa : List Taxon :=
  [{ kingdom := "Eukaryota", phylum := "Foraminifera", genus := "Globigerina",
     species := "Globigerina bulloides" },
   { kingdom := "Eukaryota", phylum := "Radiolaria", genus := "Spongaster",
     species := "Spongaster tetras" },
   { kingdom := "Eukaryota", phylum := "Ciliophora", genus := "Paramecium",
     species := "Paramecium aurelia" },
   { kingdom := "Eukaryota", phylum := "Nematoda", genus := "Caenorhabditis",
     species := "Caenorhabditis elegans" }]

/-- The RNG outputs one loop iteration of `process_sequence_file` consumes
(tasks.py lines 150-166): the index drawn by `random.choice(sample_taxa)`,
the two `random.random()` draws deciding confidence level and novelty, the
`random.uniform(0.7, 0.98)` confidence score, and the
`random.randint(1, 50)` read count. -/
structure RandomDraws where
  i_taxon : ℕ
  r_conf : ℚ
  u_score : ℚ
  n_reads : ℤ
  r_novel : ℚ
deriving DecidableEq

/-- The decimal digit character of `n mod 10`. -/
def digitChar (n : ℕ) : Char :=
  Char.ofNat (48 + n % 10)

/-- Python `f-string` zero-padded formatting of the loop index, written out
digit by digit; on the index range 0..199 that `process_sequence_file` can
reach (the loop bound is `random.randint(50, 200)`) this agrees with
Python's four-digit zero-padded rendering. -/
def pad4 (i : ℕ) : String :=
  String.mk [digitChar (i / 1000), digitChar (i / 100), digitChar (i / 10), digitChar i]

/-- The `TaxonomicAssignment` row that iteration `i` of
`process_sequence_file` builds (tasks.py lines 150-166), with the random
draws made explicit. -/
def mkSimulatedAssignment (sample_id : String) (i : ℕ) (d : RandomDraws) :
    TaxonomicAssignment :=
  let t := sample_taxa.getD (d.i_taxon % sample_taxa.length)
    { kingdom := "Eukaryota", phylum := "Foraminifera", genus := "Globigerina",
      species := "Globigerina bulloides" }
  { sample_id := sample_id
    sequence_id := "seq_" ++ sample_id ++ "_" ++ pad4 i
    sequence_data := "ATCGATCGATCGATCG..."
    kingdom := t.kingdom
    phylum := some t.phylum
    genus := some t.genus
    species := some t.species
    database_source := "SSU_eukaryote_rRNA"
    confidence_level := if 3/10 < d.r_conf then "high" else "medium"
    confidence_score := d.u_score
    read_count := d.n_reads
    is_novel_taxon := decide (d.r_novel < 1/10) }

/-- `TaxonomicAssignment.objects.create` against the table's
`unique_together` constraint on `sample` and `sequence_id`
(`core/models.py` lines 191-193): inserting a duplicate key raises an
integrity error, otherwise the row is appended. -/
def dbCreate (db : List TaxonomicAssignment) (a : TaxonomicAssignment) :
    Except String (List TaxonomicAssignment) :=
  if db.any (fun b => b.sample_id == a.sample_id && b.sequence_id == a.sequence_id) then
    Except.error "UNIQUE constraint failed: core_taxonomicassignment.sample_id, core_taxonomicassignment.sequence_id"
  else Except.ok (db ++ [a])

/-- The create loop of `process_sequence_file` (tasks.py lines 149-167):
each iteration inserts one simulated assignment; the first failing insert
raises, which the task's `except Exception` handler turns into an error
result, leaving the rows created so far in the table. -/
def processLoop (sample_id : String) (draws : ℕ → RandomDraws) :
    List TaxonomicAssignment → ℕ → ℕ → ℕ →
    List TaxonomicAssignment × Except String ℕ
  | db, _, 0, created => (db, Except.ok created)
  | db, i, rem + 1, created =>
    match dbCreate db (mkSimulatedAssignment sample_id i (draws i)) with
    | Except.error e => (db, Except.error e)
    | Except.ok db2 => processLoop sample_id draws db2 (i + 1) rem (created + 1)

/-- `process_sequence_file` (tasks.py lines 124-182) over an explicit
assignment table and RNG stream: `nCount` is the `random.randint(50, 200)`
loop bound, `draws i` the random values iteration `i` consumes.  Returns the
table after the call and either the `assignments_created` count of the
success result or the error message of the error result. -/
def process_sequence_file (db : List TaxonomicAssignment) (sample_id : String)
    (nCount : ℕ) (draws : ℕ → RandomDraws) :
    List TaxonomicAssignment × Except String ℕ :=
  processLoop sample_id draws db 0 nCount 0

/-- A concrete assignment row for evaluating the definitions: only the
taxonomy fields, confidence level, read count and novelty flag vary. -/
def mkTA (species genus phylum : Option String) (level : String) (rc : ℤ)
    (novel : Bool) : TaxonomicAssignment :=
  { sample_id := "SAMP-001"
    sequence_id := "seq_SAMP-001_0000"
    sequence_data := "ACGT"
    kingdom := "Eukaryota"
    phylum := phylum
    genus := genus
    species := species
    database_source := "SSU_eukaryote_rRNA"
    confidence_level := level
    confidence_score := 9/10
    read_count := rc
    is_novel_taxon := novel }

/-- A sample whose species counts are A 1, B 1, C 2. -/
def wChao : List TaxonomicAssignment :=
  [mkTA (some "A") none (some "Cnidaria") "high" 1 false,
   mkTA (some "B") none (some "Nematoda") "high" 1 false,
   mkTA (some "C") none none "medium" 2 false]

/-- A sample with a single species holding 10 reads. -/
def wSingle : List TaxonomicAssignment :=
  [mkTA (some "A") none (some "Foraminifera") "high" 10 false]

/-- A single assignment with confidence level uncertain and 2 reads. -/
def wUncertain : TaxonomicAssignment :=
  mkTA none none none "uncertain" 2 false

/-- Constant draw stream for evaluating `process_sequence_file`: the first
`random.random()` is 1/2 (so confidence comes out high), the score draw is
4/5, the read count draw is 3, the novelty draw is 1/2 (not novel), and
`random.choice` picks the first taxon. -/
def demoDraw : RandomDraws :=
  { i_taxon := 0, r_conf := 1/2, u_score := 4/5, n_reads := 3, r_novel := 1/2 }

/-- First run of the simulated pipeline on sample SAMP-001 over an empty
table, with loop bound 50. -/
def demoRun1 : List TaxonomicAssignment × Except String ℕ :=
  process_sequence_file [] "SAMP-001" 50 (fun _ => demoDraw)

/-- Second run with the identical inputs, starting from the table the first
run left behind. -/
def demoRun2 : List TaxonomicAssignment × Except String ℕ :=
  process_sequence_file demoRun1.1 "SAMP-001" 50 (fun _ => demoDraw)

theorem totalReads_nil : totalReads [] = 0 := rfl

theorem totalReads_cons (a : TaxonomicAssignment) (as : List TaxonomicAssignment) :
    totalReads (a :: as) = a.read_count + totalReads as := by
  simp [totalReads]

theorem speciesKeys_cons (a : TaxonomicAssignment) (as : List TaxonomicAssignment) :
    speciesKeys (a :: as) = insert (speciesKeyOf a) (speciesKeys as) := by
  simp [speciesKeys]

theorem mem_speciesKeys {as : List TaxonomicAssignment} {k : String} :
    k ∈ speciesKeys as ↔ ∃ a ∈ as, speciesKeyOf a = k := by
  simp [speciesKeys]

theorem speciesKeys_nonempty {as : List TaxonomicAssignment} (h : as ≠ []) :
    (speciesKeys as).Nonempty := by
  cases as with
  | nil => exact absurd rfl h
  | cons a t => exact ⟨speciesKeyOf a, by simp [speciesKeys_cons]⟩

theorem groupCount_cons (a : TaxonomicAssignment) (as : List TaxonomicAssignment)
    (k : String) :
    groupCount (a :: as) k =
      (if speciesKeyOf a = k then a.read_count else 0) + groupCount as k := by
  by_cases h : speciesKeyOf a = k <;>
    simp [groupCount, List.filter_cons, h]

theorem groupCount_eq_zero {k : String} :
    ∀ {as : List TaxonomicAssignment}, k ∉ speciesKeys as → groupCount as k = 0 := by
  intro as
  induction as with
  | nil => intro _; rfl
  | cons a t ih =>
    intro h
    rw [speciesKeys_cons] at h
    simp only [Finset.mem_insert, not_or] at h
    rw [groupCount_cons, if_neg (fun e => h.1 e.symm), ih h.2, add_zero]

theorem sum_groupCount :
    ∀ as : List TaxonomicAssignment,
      ∑ k in speciesKeys as, groupCount as k = totalReads as := by
  intro as
  induction as with
  | nil => simp [speciesKeys, totalReads]
  | cons a t ih =>
    rw [speciesKeys_cons, totalReads_cons]
    by_cases h : speciesKeyOf a ∈ speciesKeys t
    · rw [Finset.insert_eq_self.mpr h]
      calc ∑ k in speciesKeys t, groupCount (a :: t) k
          = ∑ k in speciesKeys t,
              ((if speciesKeyOf a = k then a.read_count else 0) + groupCount t k) :=
            Finset.sum_congr rfl (fun k _ => groupCount_cons a t k)
        _ = (∑ k in speciesKeys t, if speciesKeyOf a = k then a.read_count else 0) +
              ∑ k in speciesKeys t, groupCount t k := Finset.sum_add_distrib
        _ = a.read_count + totalReads t := by
            rw [Finset.sum_ite_eq (speciesKeys t) (speciesKeyOf a)
              (fun _ => a.read_count), if_pos h, ih]
    · rw [Finset.sum_insert h]
      have h0 : groupCount t (speciesKeyOf a) = 0 := groupCount_eq_zero h
      have h1 : ∑ k in speciesKeys t, groupCount (a :: t) k = totalReads t := by
        calc ∑ k in speciesKeys t, groupCount (a :: t) k
            = ∑ k in speciesKeys t,
                ((if speciesKeyOf a = k then a.read_count else 0) + groupCount t k) :=
              Finset.sum_congr rfl (fun k _ => groupCount_cons a t k)
          _ = (∑ k in speciesKeys t, if speciesKeyOf a = k then a.read_count else 0) +
                ∑ k in speciesKeys t, groupCount t k := Finset.sum_add_distrib
          _ = totalReads t := by
              rw [Finset.sum_ite_eq (speciesKeys t) (speciesKeyOf a)
                (fun _ => a.read_count), if_neg h, ih, zero_add]
      rw [groupCount_cons, if_pos rfl, h0, add_zero, h1]

theorem groupCount_nonneg {as : List TaxonomicAssignment} {k : String}
    (h : ∀ a ∈ as, 0 ≤ a.read_count) : 0 ≤ groupCount as k := by
  apply List.sum_nonneg
  intro x hx
  simp only [List.mem_map, List.mem_filter] at hx
  obtain ⟨a, ⟨ha, _⟩, rfl⟩ := hx
  exact h a ha

theorem groupCount_pos {k : String} :
    ∀ {as : List TaxonomicAssignment}, (∀ a ∈ as, 1 ≤ a.read_count) →
      k ∈ speciesKeys as → 1 ≤ groupCount as k := by
  intro as
  induction as with
  | nil => intro _ hk; simp [speciesKeys] at hk
  | cons a t ih =>
    intro h1 hk
    rw [speciesKeys_cons, Finset.mem_insert] at hk
    have ha : 1 ≤ a.read_count := h1 a (by simp)
    have ht : ∀ b ∈ t, 1 ≤ b.read_count := fun b hb => h1 b (List.mem_cons_of_mem a hb)
    rw [groupCount_cons]
    by_cases he : speciesKeyOf a = k
    · have h0 : 0 ≤ groupCount t k :=
        groupCount_nonneg (fun b hb => le_trans zero_le_one (ht b hb))
      rw [if_pos he]
      linarith
    · rw [if_neg he, zero_add]
      rcases hk with h | h
      · exact absurd h.symm he
      · exact ih ht h

theorem groupCount_le_totalReads {k : String} :
    ∀ {as : List TaxonomicAssignment}, (∀ a ∈ as, 0 ≤ a.read_count) →
      groupCount as k ≤ totalReads as := by
  intro as
  induction as with
  | nil => intro _; simp [totalReads]; rfl
  | cons a t ih =>
    intro h
    have ha : 0 ≤ a.read_count := h a (by simp)
    have ht : ∀ b ∈ t, 0 ≤ b.read_count := fun b hb => h b (List.mem_cons_of_mem a hb)
    rw [groupCount_cons, totalReads_cons]
    have hite : (if speciesKeyOf a = k then a.read_count else 0) ≤ a.read_count := by
      split
      · exact le_refl _
      · exact ha
    exact add_le_add hite (ih ht)

theorem totalReads_pos {as : List TaxonomicAssignment} (hne : as ≠ [])
    (h1 : ∀ a ∈ as, 1 ≤ a.read_count) : 1 ≤ totalReads as := by
  cases as with
  | nil => exact absurd rfl hne
  | cons a t =>
    have ha : 1 ≤ a.read_count := h1 a (by simp)
    have ht : ∀ b ∈ t, 0 ≤ b.read_count :=
      fun b hb => le_trans zero_le_one (h1 b (List.mem_cons_of_mem a hb))
    have h0 : 0 ≤ totalReads t := by
      apply List.sum_nonneg
      intro x hx
      simp only [List.mem_map] at hx
      obtain ⟨b, hb, rfl⟩ := hx
      exact ht b hb
    rw [totalReads_cons]
    linarith

theorem sum_proportions (as : List TaxonomicAssignment)
    (hT : totalReads as ≠ 0) :
    ∑ k in speciesKeys as, (groupCount as k : ℚ) / (totalReads as : ℚ) = 1 := by
  rw [← Finset.sum_div]
  have h2 : (∑ k in speciesKeys as, (groupCount as k : ℚ)) = ((totalReads as : ℤ) : ℚ) := by
    rw [← sum_groupCount as]
    push_cast
    rfl
  rw [h2]
  exact div_self (by exact_mod_cast hT)

theorem readsIn_cons (a : TaxonomicAssignment) (as : List TaxonomicAssignment)
    (P : List String) :
    readsIn (a :: as) P = (if phylumIn a P then a.read_count else 0) + readsIn as P := by
  by_cases h : phylumIn a P = true <;>
    simp [readsIn, List.filter_cons, h]

theorem readsIn_nonneg {as : List TaxonomicAssignment} {P : List String}
    (h : ∀ a ∈ as, 0 ≤ a.read_count) : 0 ≤ readsIn as P := by
  apply List.sum_nonneg
  intro x hx
  simp only [List.mem_map, List.mem_filter] at hx
  obtain ⟨a, ⟨ha, _⟩, rfl⟩ := hx
  exact h a ha

theorem readsIn_le_totalReads {P : List String} :
    ∀ {as : List TaxonomicAssignment}, (∀ a ∈ as, 0 ≤ a.read_count) →
      readsIn as P ≤ totalReads as := by
  intro as
  induction as with
  | nil => intro _; simp [readsIn, totalReads]
  | cons a t ih =>
    intro h
    have ha : 0 ≤ a.read_count := h a (by simp)
    have ht : ∀ b ∈ t, 0 ≤ b.read_count := fun b hb => h b (List.mem_cons_of_mem a hb)
    rw [readsIn_cons, totalReads_cons]
    have hite : (if phylumIn a P then a.read_count else 0) ≤ a.read_count := by
      split
      · exact le_refl _
      · exact ha
    exact add_le_add hite (ih ht)

theorem protist_excl {p : String} (hp : p ∈ protist_phylums) :
    p ∉ metazoan_phylums ∧ p ∉ cnidarian_phylums ∧ p ∉ fungi_phylums := by
  simp only [protist_phylums, List.mem_cons, List.not_mem_nil, or_false] at hp
  rcases hp with rfl | rfl | rfl | rfl <;> exact ⟨by decide, by decide, by decide⟩

theorem metazoan_excl {p : String} (hp : p ∈ metazoan_phylums) :
    p ∉ cnidarian_phylums ∧ p ∉ fungi_phylums := by
  simp only [metazoan_phylums, List.mem_cons, List.not_mem_nil, or_false] at hp
  rcases hp with rfl | rfl | rfl | rfl <;> exact ⟨by decide, by decide⟩

theorem cnidarian_excl {p : String} (hp : p ∈ cnidarian_phylums) :
    p ∉ fungi_phylums := by
  simp only [cnidarian_phylums, List.mem_cons, List.not_mem_nil, or_false] at hp
  subst hp
  decide

theorem fourIndicator_le (a : TaxonomicAssignment) (ha : 0 ≤ a.read_count) :
    (if phylumIn a protist_phylums then a.read_count else 0) +
    (if phylumIn a metazoan_phylums then a.read_count else 0) +
    (if phylumIn a cnidarian_phylums then a.read_count else 0) +
    (if phylumIn a fungi_phylums then a.read_count else 0) ≤ a.read_count := by
  rcases hpv : a.phylum with _ | p
  · simpa [phylumIn, hpv] using ha
  · simp only [phylumIn, hpv]
    by_cases h1 : p ∈ protist_phylums
    · obtain ⟨h2, h3, h4⟩ := protist_excl h1
      simp [h1, h2, h3, h4]
    · by_cases h2 : p ∈ metazoan_phylums
      · obtain ⟨h3, h4⟩ := metazoan_excl h2
        simp [h1, h2, h3, h4]
      · by_cases h3 : p ∈ cnidarian_phylums
        · have h4 := cnidarian_excl h3
          simp [h1, h2, h3, h4]
        · by_cases h4 : p ∈ fungi_phylums
          · simp [h1, h2, h3, h4]
          · simpa [h1, h2, h3, h4] using ha

theorem four_reads_le :
    ∀ as : List TaxonomicAssignment, (∀ a ∈ as, 0 ≤ a.read_count) →
      readsIn as protist_phylums + readsIn as metazoan_phylums +
        readsIn as cnidarian_phylums + readsIn as fungi_phylums ≤ totalReads as := by
  intro as
  induction as with
  | nil => intro _; simp [readsIn, totalReads]
  | cons a t ih =>
    intro h
    have ha : 0 ≤ a.read_count := h a (by simp)
    have ht : ∀ b ∈ t, 0 ≤ b.read_count := fun b hb => h b (List.mem_cons_of_mem a hb)
    have hhead := fourIndicator_le a ha
    have iht := ih ht
    rw [readsIn_cons, readsIn_cons, readsIn_cons, readsIn_cons, totalReads_cons]
    linarith

/-- Claim C1, counterexample: on a single assignment whose confidence level
is uncertain and whose read count is 2, the computed assignment rate is 1/2
(all assignments counted, divided by total reads) while the claimed formula
(assignments with confidence level other than uncertain, divided by the
number of assignments attempted) gives 0, so the claim as stated is false. -/
theorem assignmentRate_differs_from_spec :
    assignmentRate [wUncertain] ≠ specAssignmentRate [wUncertain] := by
  have h1 : assignmentRate [wUncertain] = 1/2 := by
    norm_num [assignmentRate, totalReads, assignedSequences, wUncertain, mkTA]
  have h2 : specAssignmentRate [wUncertain] = 0 := by
    norm_num [specAssignmentRate, specAssignedSequences, wUncertain, mkTA]
  rw [h1, h2]
  norm_num

/-- Claim C1, amended: for every non-empty assignment set with all read
counts at least 1, the computed assignment rate equals the total number of
assignments (all of them, regardless of confidence level) divided by
total reads, the sum of read counts. -/
theorem assignmentRate_eq_count_div_totalReads (as : List TaxonomicAssignment)
    (hne : as ≠ []) (h1 : ∀ a ∈ as, 1 ≤ a.read_count) :
    assignmentRate as = (as.length : ℚ) / (totalReads as : ℚ) := by
  have hT : 0 < totalReads as := lt_of_lt_of_le zero_lt_one (totalReads_pos hne h1)
  simp [assignmentRate, assignedSequences, hT]

/-- Witness for the amended claim C1 at the concrete single-species sample. -/
theorem assignmentRate_eq_count_div_totalReads_witness :
    wSingle ≠ [] ∧ (∀ a ∈ wSingle, 1 ≤ a.read_count) ∧
      assignmentRate wSingle = (wSingle.length : ℚ) / (totalReads wSingle : ℚ) :=
  ⟨by decide, by decide,
    assignmentRate_eq_count_div_totalReads wSingle (by decide) (by decide)⟩

/-- Claim C2 (code bug): evaluating the grouping key at an assignment with
no species and no genus yields the string None_sp, never the claimed
fallback Unknown; with an empty-string genus it yields the string _sp.  The
fallback operand of the source's `or` chain is unreachable because the
interpolated genus string is never empty. -/
theorem speciesKey_unknown_fallback_unreachable :
    speciesKeyOf (mkTA none none none "high" 1 false) = "None_sp" ∧
    speciesKeyOf (mkTA none (some "") none "high" 1 false) = "_sp" ∧
    speciesKeyOf (mkTA none none none "high" 1 false) ≠ "Unknown" := by
  exact ⟨by decide, by decide, by decide⟩

/-- Claim C3: the metrics computation on the empty assignment set yields the
empty-assignment-set error result rather than a metrics record, and
persists no `BiodiversityMetrics` row (the write runs only on the success
path). -/
theorem calculate_metrics_empty_is_error :
    calculate_biodiversity_metrics [] =
      Except.error "No taxonomic assignments found for sample" ∧
    persistedMetrics [] = none :=
  ⟨rfl, rfl⟩

/-- Claim C4: for every non-empty assignment set the Chao1 estimate is at
least the observed OTU count; with doubletons present it equals
observed plus singletons squared over twice the doubletons, and with no
doubletons it equals the observed count exactly. -/
theorem chao1_ge_observed_and_formula (as : List TaxonomicAssignment)
    (hne : as ≠ []) :
    (observedOtus as : ℚ) ≤ chao1Richness as ∧
    (0 < doubletons as →
      chao1Richness as = (observedOtus as : ℚ) +
        ((singletons as : ℚ) * (singletons as : ℚ)) / (2 * (doubletons as : ℚ))) ∧
    (doubletons as = 0 → chao1Richness as = (observedOtus as : ℚ)) := by
  refine ⟨?_, ?_, ?_⟩
  · by_cases h : 0 < doubletons as
    · rw [chao1Richness, if_pos h]
      have hd : (0:ℚ) < (doubletons as : ℚ) := by exact_mod_cast h
      have hnn : 0 ≤ ((singletons as : ℚ) * (singletons as : ℚ)) /
          (2 * (doubletons as : ℚ)) := by positivity
      linarith
    · rw [chao1Richness, if_neg h]
  · intro h
    rw [chao1Richness, if_pos h]
  · intro h
    rw [chao1Richness, if_neg (by simp [h])]

/-- Witness for claim C4 at the concrete sample with species counts
A 1, B 1, C 2. -/
theorem chao1_ge_observed_and_formula_witness :
    wChao ≠ [] ∧
    ((observedOtus wChao : ℚ) ≤ chao1Richness wChao ∧
     (0 < doubletons wChao →
       chao1Richness wChao = (observedOtus wChao : ℚ) +
         ((singletons wChao : ℚ) * (singletons wChao : ℚ)) /
           (2 * (doubletons wChao : ℚ))) ∧
     (doubletons wChao = 0 → chao1Richness wChao = (observedOtus wChao : ℚ))) :=
  ⟨by decide, chao1_ge_observed_and_formula wChao (by decide)⟩

/-- Claim C9 (code bug): `process_sequence_file` run twice on the same
sample with identical random draws does not overwrite the prior assignments
keyed by sample and sequence id: the first run inserts 50 fresh rows, and
the second run's very first insert violates the unique-together constraint,
aborting with an integrity error and leaving the table exactly as the first
run left it - no overwrite, no identical second assignment set. -/
theorem process_sequence_file_rerun_errors :
    demoRun1.2 = Except.ok 50 ∧
    demoRun2.1 = demoRun1.1 ∧
    demoRun2.2 = Except.error "UNIQUE constraint failed: core_taxonomicassignment.sample_id, core_taxonomicassignment.sequence_id" :=
  ⟨rfl, rfl, rfl⟩

/-- Claim C7: the Confidence Classifier maps no match to level uncertain
with score 0; otherwise the score is the identity fraction times
`min(1, coverage_percent/70)`, and with the default thresholds the level is
high when the score is at least 0.90, medium on scores in the interval
from 0.70 up to but excluding 0.90, low from 0.50 up to but excluding 0.70,
and uncertain below 0.50. -/
theorem classify_confidence_correct :
    classify defaultThresholds none = ("uncertain", 0) ∧
    ∀ m : MatchResult,
      (classify defaultThresholds (some m)).2 =
        m.identity_percent / 100 * min 1 (m.coverage_percent / 70) ∧
      (9/10 ≤ (classify defaultThresholds (some m)).2 →
        (classify defaultThresholds (some m)).1 = "high") ∧
      (7/10 ≤ (classify defaultThresholds (some m)).2 →
        (classify defaultThresholds (some m)).2 < 9/10 →
        (classify defaultThresholds (some m)).1 = "medium") ∧
      (1/2 ≤ (classify defaultThresholds (some m)).2 →
        (classify defaultThresholds (some m)).2 < 7/10 →
        (classify defaultThresholds (some m)).1 = "low") ∧
      ((classify defaultThresholds (some m)).2 < 1/2 →
        (classify defaultThresholds (some m)).1 = "uncertain") := by
  refine ⟨rfl, fun m => ?_⟩
  simp only [classify, defaultThresholds]
  split_ifs with h1 h2 h3
  · exact ⟨rfl, fun _ => rfl,
      fun _ hb => absurd h1 (not_le.mpr hb),
      fun _ hb => absurd h1 (not_le.mpr (lt_of_lt_of_le hb (by norm_num))),
      fun hb => absurd h1 (not_le.mpr (lt_of_lt_of_le hb (by norm_num)))⟩
  · exact ⟨rfl, fun hc => absurd hc h1, fun _ _ => rfl,
      fun _ hb => absurd h2 (not_le.mpr hb),
      fun hb => absurd h2 (not_le.mpr (lt_of_lt_of_le hb (by norm_num)))⟩
  · exact ⟨rfl, fun hc => absurd hc h1, fun hc _ => absurd hc h2,
      fun _ _ => rfl, fun hb => absurd h3 (not_le.mpr hb)⟩
  · exact ⟨rfl, fun hc => absurd hc h1, fun hc _ => absurd hc h2,
      fun hc _ => absurd hc h3, fun _ => rfl⟩

/-- Claim C8: the Novel-Taxon Detector flags a sequence exactly when no
database produced a hit or the best hit's identity is below 80 percent, and
a sequence with no hit at all is flagged under every configured identity
threshold. -/
theorem is_novel_correct :
    (∀ best : Option MatchResult,
      is_novel 80 best = true ↔
        (best = none ∨ ∃ m, best = some m ∧ m.identity_percent < 80)) ∧
    (∀ t : ℚ, is_novel t none = true) := by
  constructor
  · intro best
    cases best with
    | none => simp [is_novel]
    | some m => simp [is_novel]
  · intro t
    rfl

/-- Claim C6: for every non-empty assignment set with all read counts at
least 1, the computed Simpson diversity lies in the half-open unit
interval: it is never negative and never reaches 1. -/
theorem simpson_in_unit_interval (as : List TaxonomicAssignment)
    (hne : as ≠ []) (h1 : ∀ a ∈ as, 1 ≤ a.read_count) :
    0 ≤ simpsonDiversity as ∧ simpsonDiversity as < 1 := by
  have h0 : ∀ a ∈ as, 0 ≤ a.read_count := fun a ha => le_trans zero_le_one (h1 a ha)
  have hT : 0 < totalReads as := lt_of_lt_of_le zero_lt_one (totalReads_pos hne h1)
  have hTQ : (0:ℚ) < (totalReads as : ℚ) := by exact_mod_cast hT
  have hposk : ∀ k ∈ speciesKeys as, 0 < groupCount as k :=
    fun k hk => lt_of_lt_of_le zero_lt_one (groupCount_pos h1 hk)
  have hsum : (∑ k in speciesKeys as,
      (if 0 < groupCount as k then
        ((groupCount as k : ℚ) / (totalReads as : ℚ)) *
        ((groupCount as k : ℚ) / (totalReads as : ℚ)) else 0))
      = ∑ k in speciesKeys as,
        ((groupCount as k : ℚ) / (totalReads as : ℚ)) *
        ((groupCount as k : ℚ) / (totalReads as : ℚ)) :=
    Finset.sum_congr rfl (fun k hk => if_pos (hposk k hk))
  have hval : simpsonDiversity as = 1 - ∑ k in speciesKeys as,
      ((groupCount as k : ℚ) / (totalReads as : ℚ)) *
      ((groupCount as k : ℚ) / (totalReads as : ℚ)) := by
    rw [simpsonDiversity, hsum]
  have hp0 : ∀ k ∈ speciesKeys as,
      0 ≤ (groupCount as k : ℚ) / (totalReads as : ℚ) := by
    intro k hk
    exact div_nonneg (by exact_mod_cast (hposk k hk).le) hTQ.le
  have hSle : (∑ k in speciesKeys as,
      ((groupCount as k : ℚ) / (totalReads as : ℚ)) *
      ((groupCount as k : ℚ) / (totalReads as : ℚ))) ≤ 1 := by
    have hterm : ∀ k ∈ speciesKeys as,
        ((groupCount as k : ℚ) / (totalReads as : ℚ)) *
        ((groupCount as k : ℚ) / (totalReads as : ℚ)) ≤
          (groupCount as k : ℚ) / (totalReads as : ℚ) := by
      intro k hk
      have hple : (groupCount as k : ℚ) / (totalReads as : ℚ) ≤ 1 := by
        rw [div_le_one hTQ]
        exact_mod_cast groupCount_le_totalReads h0
      calc ((groupCount as k : ℚ) / (totalReads as : ℚ)) *
            ((groupCount as k : ℚ) / (totalReads as : ℚ))
          ≤ 1 * ((groupCount as k : ℚ) / (totalReads as : ℚ)) :=
            mul_le_mul_of_nonneg_right hple (hp0 k hk)
        _ = (groupCount as k : ℚ) / (totalReads as : ℚ) := one_mul _
    calc (∑ k in speciesKeys as,
          ((groupCount as k : ℚ) / (totalReads as : ℚ)) *
          ((groupCount as k : ℚ) / (totalReads as : ℚ)))
        ≤ ∑ k in speciesKeys as, (groupCount as k : ℚ) / (totalReads as : ℚ) :=
          Finset.sum_le_sum hterm
      _ = 1 := sum_proportions as (ne_of_gt hT)
  have hSpos : 0 < ∑ k in speciesKeys as,
      ((groupCount as k : ℚ) / (totalReads as : ℚ)) *
      ((groupCount as k : ℚ) / (totalReads as : ℚ)) := by
    obtain ⟨κ, hκ⟩ := speciesKeys_nonempty hne
    apply Finset.sum_pos'
    · intro k hk
      exact mul_nonneg (hp0 k hk) (hp0 k hk)
    · refine ⟨κ, hκ, ?_⟩
      have hgt : 0 < (groupCount as κ : ℚ) / (totalReads as : ℚ) :=
        div_pos (by exact_mod_cast hposk κ hκ) hTQ
      exact mul_pos hgt hgt
  rw [hval]
  constructor
  · linarith
  · linarith

/-- Witness for claim C6 at the concrete sample with species counts
A 1, B 1, C 2. -/
theorem simpson_in_unit_interval_witness :
    wChao ≠ [] ∧ (∀ a ∈ wChao, 1 ≤ a.read_count) ∧
      (0 ≤ simpsonDiversity wChao ∧ simpsonDiversity wChao < 1) :=
  ⟨by decide, by decide, simpson_in_unit_interval wChao (by decide) (by decide)⟩

/-- Claim C10: for every non-empty assignment set with all read counts at
least 1, the four major-group percentages each lie between 0 and 100, and
their sum is at most 100 - the four configured phylum sets are pairwise
disjoint, so each assignment contributes to at most one group. -/
theorem composition_percentages_bounded (as : List TaxonomicAssignment)
    (hne : as ≠ []) (h1 : ∀ a ∈ as, 1 ≤ a.read_count) :
    (0 ≤ protistPercentage as ∧ protistPercentage as ≤ 100) ∧
    (0 ≤ metazoanPercentage as ∧ metazoanPercentage as ≤ 100) ∧
    (0 ≤ cnidarianPercentage as ∧ cnidarianPercentage as ≤ 100) ∧
    (0 ≤ fungiPercentage as ∧ fungiPercentage as ≤ 100) ∧
    protistPercentage as + metazoanPercentage as +
      cnidarianPercentage as + fungiPercentage as ≤ 100 := by
  have h0 : ∀ a ∈ as, 0 ≤ a.read_count := fun a ha => le_trans zero_le_one (h1 a ha)
  have hT : 0 < totalReads as := lt_of_lt_of_le zero_lt_one (totalReads_pos hne h1)
  have hTQ : (0:ℚ) < (totalReads as : ℚ) := by exact_mod_cast hT
  have hone : ∀ P : List String,
      0 ≤ (readsIn as P : ℚ) / (totalReads as : ℚ) * 100 ∧
      (readsIn as P : ℚ) / (totalReads as : ℚ) * 100 ≤ 100 := by
    intro P
    have hn : (0:ℚ) ≤ (readsIn as P : ℚ) := by exact_mod_cast readsIn_nonneg h0
    have hle : (readsIn as P : ℚ) / (totalReads as : ℚ) ≤ 1 := by
      rw [div_le_one hTQ]
      exact_mod_cast readsIn_le_totalReads h0
    constructor
    · positivity
    · calc (readsIn as P : ℚ) / (totalReads as : ℚ) * 100 ≤ 1 * 100 :=
          mul_le_mul_of_nonneg_right hle (by norm_num)
        _ = 100 := one_mul _
  have hp := hone protist_phylums
  have hm := hone metazoan_phylums
  have hc := hone cnidarian_phylums
  have hf := hone fungi_phylums
  have hsum4 : (readsIn as protist_phylums : ℚ) + (readsIn as metazoan_phylums : ℚ) +
      (readsIn as cnidarian_phylums : ℚ) + (readsIn as fungi_phylums : ℚ) ≤
      (totalReads as : ℚ) := by
    exact_mod_cast four_reads_le as h0
  have hsumdiv : ((readsIn as protist_phylums : ℚ) + (readsIn as metazoan_phylums : ℚ) +
      (readsIn as cnidarian_phylums : ℚ) + (readsIn as fungi_phylums : ℚ)) /
      (totalReads as : ℚ) ≤ 1 := by
    rw [div_le_one hTQ]
    exact hsum4
  refine ⟨?_, ?_, ?_, ?_, ?_⟩
  · simpa [protistPercentage, hT] using hp
  · simpa [metazoanPercentage, hT] using hm
  · simpa [cnidarianPercentage, hT] using hc
  · simpa [fungiPercentage, hT] using hf
  · have heq : protistPercentage as + metazoanPercentage as +
        cnidarianPercentage as + fungiPercentage as =
        ((readsIn as protist_phylums : ℚ) + (readsIn as metazoan_phylums : ℚ) +
         (readsIn as cnidarian_phylums : ℚ) + (readsIn as fungi_phylums : ℚ)) /
        (totalReads as : ℚ) * 100 := by
      rw [protistPercentage, metazoanPercentage, cnidarianPercentage, fungiPercentage,
        if_pos hT, if_pos hT, if_pos hT, if_pos hT]
      ring
    rw [heq]
    calc ((readsIn as protist_phylums : ℚ) + (readsIn as metazoan_phylums : ℚ) +
         (readsIn as cnidarian_phylums : ℚ) + (readsIn as fungi_phylums : ℚ)) /
        (totalReads as : ℚ) * 100 ≤ 1 * 100 :=
          mul_le_mul_of_nonneg_right hsumdiv (by norm_num)
      _ = 100 := one_mul _

/-- Witness for claim C10 at the concrete sample with phyla Cnidaria,
Nematoda and one null phylum. -/
theorem composition_percentages_bounded_witness :
    wChao ≠ [] ∧ (∀ a ∈ wChao, 1 ≤ a.read_count) ∧
      ((0 ≤ protistPercentage wChao ∧ protistPercentage wChao ≤ 100) ∧
       (0 ≤ metazoanPercentage wChao ∧ metazoanPercentage wChao ≤ 100) ∧
       (0 ≤ cnidarianPercentage wChao ∧ cnidarianPercentage wChao ≤ 100) ∧
       (0 ≤ fungiPercentage wChao ∧ fungiPercentage wChao ≤ 100) ∧
       protistPercentage wChao + metazoanPercentage wChao +
         cnidarianPercentage wChao + fungiPercentage wChao ≤ 100) :=
  ⟨by decide, by decide, composition_percentages_bounded wChao (by decide) (by decide)⟩

/-- Claim C5: for every non-empty assignment set with all read counts at
least 1, the computed Shannon diversity is zero exactly when one single
species group carries a positive count - equivalently, since every group
count is positive here, when there is exactly one species group. -/
theorem shannon_zero_iff_single_group (as : List TaxonomicAssignment)
    (hne : as ≠ []) (h1 : ∀ a ∈ as, 1 ≤ a.read_count) :
    shannonDiversity as = 0 ↔
      ((speciesKeys as).filter (fun k => 0 < groupCount as k)).card = 1 := by
  have h0 : ∀ a ∈ as, 0 ≤ a.read_count := fun a ha => le_trans zero_le_one (h1 a ha)
  have hT : 0 < totalReads as := lt_of_lt_of_le zero_lt_one (totalReads_pos hne h1)
  have hTR : (0:ℝ) < ((totalReads as : ℤ) : ℝ) := by exact_mod_cast hT
  have hposk : ∀ k ∈ speciesKeys as, 0 < groupCount as k :=
    fun k hk => lt_of_lt_of_le zero_lt_one (groupCount_pos h1 hk)
  have hfilter : (speciesKeys as).filter (fun k => 0 < groupCount as k) =
      speciesKeys as := Finset.filter_true_of_mem hposk
  rw [hfilter]
  have hsum : shannonDiversity as = ∑ k in speciesKeys as,
      -(((groupCount as k : ℝ) / (totalReads as : ℝ)) *
        Real.log ((groupCount as k : ℝ) / (totalReads as : ℝ))) := by
    rw [shannonDiversity]
    exact Finset.sum_congr rfl (fun k hk => if_pos (hposk k hk))
  have hp0 : ∀ k ∈ speciesKeys as,
      (0:ℝ) < (groupCount as k : ℝ) / (totalReads as : ℝ) := by
    intro k hk
    exact div_pos (by exact_mod_cast hposk k hk) hTR
  have hp1 : ∀ k ∈ speciesKeys as,
      (groupCount as k : ℝ) / (totalReads as : ℝ) ≤ 1 := by
    intro k hk
    rw [div_le_one hTR]
    exact_mod_cast groupCount_le_totalReads h0
  have hterm_nonneg : ∀ k ∈ speciesKeys as,
      0 ≤ -(((groupCount as k : ℝ) / (totalReads as : ℝ)) *
            Real.log ((groupCount as k : ℝ) / (totalReads as : ℝ))) := by
    intro k hk
    have hlog : Real.log ((groupCount as k : ℝ) / (totalReads as : ℝ)) ≤ 0 :=
      Real.log_nonpos (hp0 k hk).le (hp1 k hk)
    have hmul : 0 ≤ ((groupCount as k : ℝ) / (totalReads as : ℝ)) *
        (-(Real.log ((groupCount as k : ℝ) / (totalReads as : ℝ)))) :=
      mul_nonneg (hp0 k hk).le (neg_nonneg.mpr hlog)
    have heq : ((groupCount as k : ℝ) / (totalReads as : ℝ)) *
        (-(Real.log ((groupCount as k : ℝ) / (totalReads as : ℝ)))) =
        -(((groupCount as k : ℝ) / (totalReads as : ℝ)) *
          Real.log ((groupCount as k : ℝ) / (totalReads as : ℝ))) := by ring
    linarith [heq ▸ hmul]
  have hterm_iff : ∀ k ∈ speciesKeys as,
      (-(((groupCount as k : ℝ) / (totalReads as : ℝ)) *
         Real.log ((groupCount as k : ℝ) / (totalReads as : ℝ))) = 0 ↔
       groupCount as k = totalReads as) := by
    intro k hk
    constructor
    · intro h
      have hpl : ((groupCount as k : ℝ) / (totalReads as : ℝ)) *
          Real.log ((groupCount as k : ℝ) / (totalReads as : ℝ)) = 0 := by linarith
      rcases mul_eq_zero.mp hpl with h | h
      · exact absurd h (ne_of_gt (hp0 k hk))
      · rcases Real.log_eq_zero.mp h with h | h | h
        · exact absurd h (ne_of_gt (hp0 k hk))
        · have heq : (groupCount as k : ℝ) = (totalReads as : ℝ) :=
            (div_eq_one_iff_eq (ne_of_gt hTR)).mp h
          exact_mod_cast heq
        · exfalso
          have := hp0 k hk
          rw [h] at this
          norm_num at this
    · intro h
      have heq : (groupCount as k : ℝ) / (totalReads as : ℝ) = 1 := by
        rw [show ((groupCount as k : ℤ) : ℝ) = ((totalReads as : ℤ) : ℝ) by exact_mod_cast h]
        exact div_self (ne_of_gt hTR)
      rw [heq, Real.log_one, mul_zero, neg_zero]
  have hiff : shannonDiversity as = 0 ↔
      ∀ k ∈ speciesKeys as, groupCount as k = totalReads as := by
    rw [hsum]
    rw [Finset.sum_eq_zero_iff_of_nonneg hterm_nonneg]
    constructor
    · intro h k hk
      exact (hterm_iff k hk).mp (h k hk)
    · intro h k hk
      exact (hterm_iff k hk).mpr (h k hk)
  rw [hiff]
  constructor
  · intro hall
    have hsumT : ∑ k in speciesKeys as, groupCount as k =
        (speciesKeys as).card • totalReads as := by
      rw [Finset.sum_congr rfl (fun k hk => hall k hk), Finset.sum_const]
    have hTsum := sum_groupCount as
    rw [hsumT] at hTsum
    have hcard : ((speciesKeys as).card : ℤ) * totalReads as = 1 * totalReads as := by
      rw [one_mul, ← nsmul_eq_mul]
      exact hTsum
    have hone : ((speciesKeys as).card : ℤ) = 1 :=
      mul_right_cancel₀ (ne_of_gt hT) hcard
    exact_mod_cast hone
  · intro hcard
    obtain ⟨κ, hκ⟩ := Finset.card_eq_one.mp hcard
    intro k hk
    rw [hκ, Finset.mem_singleton] at hk
    subst hk
    have hTsum := sum_groupCount as
    rw [hκ, Finset.sum_singleton] at hTsum
    exact hTsum

/-- Witness for claim C5 at the concrete single-species sample with 10
reads. -/
theorem shannon_zero_iff_single_group_witness :
    wSingle ≠ [] ∧ (∀ a ∈ wSingle, 1 ≤ a.read_count) ∧
      (shannonDiversity wSingle = 0 ↔
        ((speciesKeys wSingle).filter (fun k => 0 < groupCount wSingle k)).card = 1) :=
  ⟨by decide, by decide, shannon_zero_iff_single_group wSingle (by decide) (by decide)⟩

end BluePrint
